import Mathlib

/-!
Shallow embedding of fireprox (src/fire.py): credential resolution,
region parsing, and the proxy lifecycle operations (create, update,
delete, list, prune).  Remote AWS calls are modelled as values supplied
by the environment; each operation additionally returns the list of
remote calls it performed so that claims about remote work can be
stated.  Python exceptions are modelled with `Except PyError`.
-/

namespace Fireprox

/-- Python exception outcomes relevant to fire.py. -/
inductive PyError where
  /-- A FireProxException raised through FireProx.error, with its message. -/
  | fireProx (msg : String)
  /-- TypeError, e.g. subscripting None. -/
  | typeError
  /-- IndexError, e.g. indexing an empty string or random.choice on an empty list. -/
  | indexError
  /-- ValueError raised by parse_region on a bad mode. -/
  | valueError (msg : String)
  deriving Repr, DecidableEq

/-- The remote control-plane operations the client performs. -/
inductive RemoteCall where
  | importRestApi
  | createDeployment
  | getResources
  | getIntegration
  | updateIntegration
  | deleteRestApi
  | getRestApis
  | getAccount
  deriving Repr, DecidableEq, BEq

/-- Python truthiness for an optional string argument: None and the empty
string are falsy. -/
def truthy : Option String → Bool
  | none => false
  | some s => !s.data.isEmpty

/-- The characters Python str.strip removes by default. -/
def pyIsSpace (c : Char) : Bool :=
  c = ' ' || c = '\t' || c = '\n' || c = '\r' || c = '\x0b' || c = '\x0c'

/-- Python str.strip: remove leading and trailing whitespace. -/
def py_strip (s : String) : String :=
  ⟨((s.data.dropWhile pyIsSpace).reverse.dropWhile pyIsSpace).reverse⟩

/-- Helper for single-character str.split: split the character list at
every occurrence of the separator. -/
def splitCharAux (sep : Char) : List Char → List Char → List (List Char)
  | [], acc => [acc.reverse]
  | c :: cs, acc =>
    if c = sep then acc.reverse :: splitCharAux sep cs []
    else splitCharAux sep cs (c :: acc)

/-- Python str.split with a one-character separator. -/
def pySplitChar (sep : Char) (s : String) : List String :=
  (splitCharAux sep s.data []).map (fun l => ⟨l⟩)

/-- Helper for str.replace: scan left to right, replacing non-overlapping
occurrences; the fuel (initialised to the list length) makes the
recursion structural, and suffices because every step consumes at least
one character when the pattern is non-empty. -/
def replaceFuel (old new : List Char) : Nat → List Char → List Char
  | 0, l => l
  | _ + 1, [] => []
  | fuel + 1, c :: cs =>
    if old.isPrefixOf (c :: cs) then
      new ++ replaceFuel old new fuel ((c :: cs).drop old.length)
    else c :: replaceFuel old new fuel cs

/-- Python str.replace (all non-overlapping occurrences, left to right). -/
def py_replace (s old new : String) : String :=
  ⟨replaceFuel old.data new.data s.data.length s.data⟩

/-- str.endswith for a suffix string. -/
def pyEndsWith (s suffix : String) : Bool :=
  suffix.data.isSuffixOf s.data

/-- Python s[:-n]: drop the last n characters. -/
def pyDropRight (s : String) (n : Nat) : String :=
  ⟨s.data.take (s.data.length - n)⟩

/-- The hard-coded default region list (fire.py lines 22-40). -/
def AWS_DEFAULT_REGIONS : List String :=
  [ "ap-south-1", "eu-north-1", "eu-west-3", "eu-west-2", "eu-west-1",
    "ap-northeast-3", "ap-northeast-2", "ap-northeast-1", "ca-central-1",
    "sa-east-1", "ap-southeast-1", "ap-southeast-2", "eu-central-1",
    "us-east-1", "us-east-2", "us-west-1", "us-west-2" ]

/-- Python readlines: split file content into lines, each keeping its
terminating newline; a trailing newline does not produce an extra empty
line. -/
def py_readlines (s : String) : List String :=
  let parts := pySplitChar '\n' s
  let init := (parts.dropLast).map (fun p => p ++ "\n")
  let last := parts.getLastD ""
  if last = "" then init else init ++ [last]

/-- A region argument as fire.py receives it: a string or a list
(parse_region accepts both). -/
inductive ReSpec where
  | str (s : String)
  | list (l : List String)
  deriving Repr, DecidableEq

/-- parse_region (fire.py lines 428-459).  `fs` models the local file
system (os.path.isfile + open().readlines(): path to file content);
`choose` models random.choice on a non-empty list (choice on an empty
list raises IndexError, modelled explicitly). -/
def parse_region (fs : String → Option String) (choose : List String → String)
    (region : Option ReSpec) (mode : String) : Except PyError (Option ReSpec) :=
  match region with
  | none => .ok none
  | some r =>
    if mode ≠ "all" ∧ mode ≠ "random" then
      .error (.valueError "mode should one of [all, random]")
    else
      match r with
      | .str s =>
        match fs s with
        | some content =>
          let regions := (py_readlines content).map py_strip
          if mode = "random" then
            if regions.isEmpty then .error .indexError
            else .ok (some (.str (choose regions)))
          else .ok (some (.list regions))
        | none =>
          if s.data.contains ',' then
            let regions := pySplitChar ',' s
            if mode = "random" then .ok (some (.str (choose regions)))
            else .ok (some (.list regions))
          else .ok (some (.str s))
      | .list l =>
        if mode = "all" then .ok (some (.list l))
        else if l.isEmpty then .error .indexError
        else .ok (some (.str (choose l)))

/-- Outcome of one client.delete_rest_api attempt, as distinguished by the
except clauses of delete_api (fire.py lines 315-336). -/
inductive DelResp where
  /-- the call succeeds -/
  | ok
  /-- ClientError with code NotFoundException -/
  | notFound
  /-- ClientError with code TooManyRequestsException -/
  | throttle
  /-- any other ClientError; carries the Error Message field -/
  | clientErr (msg : String)
  /-- any other BaseException -/
  | genericExc
  deriving Repr, DecidableEq

/-- Result of the delete loop: the returned (success, error_msg) pair plus
instrumentation — how many delete attempts were made and the sequence of
sleep durations performed. -/
structure DelRun where
  success : Bool
  msg : String
  attempts : Nat
  sleeps : List Nat
  deriving Repr, DecidableEq

/-- The retry loop of delete_api (fire.py lines 315-336).  `client n` is the
outcome of the (n+1)-th delete_rest_api attempt; `fuel` is the remaining
retry budget, `sleepTime` the current backoff delay.  The finally clause
decrements retry on every iteration, including the break paths. -/
def delete_loop (client : Nat → DelResp) (attempt fuel sleepTime : Nat)
    (success : Bool) (errorMsg : String) (acc : Nat) (sleeps : List Nat) : DelRun :=
  match fuel with
  | 0 => ⟨success, errorMsg, acc, sleeps⟩
  | fuel' + 1 =>
    if success then ⟨success, errorMsg, acc, sleeps⟩
    else
      match client attempt with
      | .notFound => ⟨success, "API not found", acc + 1, sleeps⟩
      | .throttle =>
        delete_loop client (attempt + 1) fuel' (sleepTime * 2) success
          "Too many requests" (acc + 1) (sleeps ++ [sleepTime])
      | .clientErr m =>
        delete_loop client (attempt + 1) fuel' sleepTime success m (acc + 1) sleeps
      | .genericExc =>
        delete_loop client (attempt + 1) fuel' sleepTime success "Generic error"
          (acc + 1) sleeps
      | .ok =>
        delete_loop client (attempt + 1) fuel' sleepTime true "" (acc + 1) sleeps

/-- delete_api (fire.py lines 308-337): guard on api_id, then the bounded
retry loop with retry = 3, sleep_time = 3. -/
def delete_api (client : Nat → DelResp) (api_id : Option String) :
    Except PyError DelRun :=
  if !truthy api_id then .error (.fireProx "Please provide a valid API ID")
  else .ok (delete_loop client 0 3 3 false "Generic error" 0 [])

/-- An item of client.get_resources: resource id and path. -/
structure Resource where
  id : String
  path : String
  deriving Repr, DecidableEq

/-- The environment of update_api: the resources listed under the api and
the uri field of the response to update_integration, as a function of the
requested replacement value. -/
structure UpdateClient where
  resources : List Resource
  /-- response of update_integration: given the resource id and the patch
  value sent for /uri, the uri field of the patched response -/
  patchedUri : String → String → String
  deriving Inhabited

/-- The trailing-slash normalisation applied to a non-empty url
(fire.py lines 287-288 and 152-153): drop the last character when it is a
slash. -/
def pyStripSlash (u : String) : String :=
  if pyEndsWith u "/" then pyDropRight u 1 else u

/-- get_resource (fire.py lines 379-389): first resource whose path is the
catch-all path. -/
def get_resource_scan (items : List Resource) : Option String :=
  match items.find? (fun item => item.path = "/\x7bproxy+\x7d") with
  | some item => some item.id
  | none => none

/-- update_api (fire.py lines 283-306).  Returns the Python outcome
(normal Bool return or exception) together with the remote calls made.
Subscripting url[-1] on None is a TypeError; on an empty string an
IndexError. -/
def update_api (client : UpdateClient) (api_id url : Option String) :
    Except PyError Bool × List RemoteCall :=
  if !(truthy api_id || truthy url) then
    (.error (.fireProx "Please provide a valid API ID and URL end-point"), [])
  else
    match url with
    | none => (.error .typeError, [])
    | some u =>
      if u.data.isEmpty then (.error .indexError, [])
      else
        let u := pyStripSlash u
        if !truthy api_id then
          (.error (.fireProx "Please provide a valid API ID"), [])
        else
          match get_resource_scan client.resources with
          | some rid =>
            let uri := client.patchedUri rid (u ++ "/\x7bproxy\x7d")
            ((.ok (py_replace uri "/\x7bproxy\x7d" "" == u)),
             [.getResources, .updateIntegration])
          | none =>
            (.error (.fireProx ("Unable to update, no valid resource for "
                ++ api_id.getD "")), [.getResources])

/-- The update branch of main (fire.py lines 551-563) together with the
top-level FireProxException handler (lines 568-570): FireProxException is
caught, help is printed and the process exits 1; any other uncaught
exception also aborts the process with a non-zero status; a normal return
exits 0.  The returned Nat is the process exit status. -/
def main_update_exit (client : UpdateClient) (api_id url : Option String) : Nat :=
  if !truthy api_id then 1
  else if !truthy url then 1
  else
    match (update_api client api_id url).fst with
    | .error _ => 1
    | .ok _ => 0

/-- The keyword arguments FireProx.__init__ receives from the CLI. -/
structure CredArgs where
  profile_name : Option String := none
  access_key : Option String := none
  secret_access_key : Option String := none
  session_token : Option String := none
  region : Option String := none
  deriving Repr

/-- The environment of credential resolution: the two local stores and the
outcomes of the get_account verification probes. -/
structure CredEnv where
  /-- section names present in the credentials file -/
  credentialsSections : List String
  /-- config file: section name to (none if the section is absent, else the
  region key value if present) -/
  configRegion : String → Option (Option String)
  /-- whether the ambient/instance-credential probe succeeds -/
  instanceProbeOk : Bool
  /-- region reported by the client configuration after the instance probe -/
  instanceRegion : String
  /-- whether the profile-session probe succeeds -/
  profileProbeOk : Bool
  /-- whether the explicit-credentials probe succeeds -/
  explicitProbeOk : Bool
  /-- service-reported region after a successful explicit-credentials probe -/
  explicitRegion : String

/-- Result of load_creds: exception, or its Bool return value together with
the final region; plus the number of get_account probe calls attempted. -/
structure CredOutcome where
  result : Except String (Bool × Option String)
  probes : Nat
  deriving Repr

/-- _try_instance_profile (fire.py lines 64-81): one probe attempt; on
success the region is taken from the client configuration, on failure the
region is left unchanged. -/
def try_instance_profile (env : CredEnv) (region : Option String) :
    Bool × Option String :=
  if env.instanceProbeOk then (true, some env.instanceRegion)
  else (false, region)

/-- The test whether the profile name is a section of the credentials
file (fire.py line 98); a None profile name is never a section. -/
def profileInCreds (args : CredArgs) (env : CredEnv) : Bool :=
  match args.profile_name with
  | some p => env.credentialsSections.contains p
  | none => false

/-- load_creds (fire.py lines 83-146).  Follows its branch order: instance
credentials when nothing was supplied; then the profile section of the
credentials file (with the region taken from the config file when none was
given, or a raised error when neither exists); then explicit keys. -/
def load_creds (args : CredArgs) (env : CredEnv) : CredOutcome :=
  if !(truthy args.access_key || truthy args.secret_access_key
       || truthy args.profile_name) then
    let r := try_instance_profile env args.region
    ⟨.ok r, 1⟩
  else
    let sect := "profile " ++ args.profile_name.getD "None"
    if profileInCreds args env then
      if (env.configRegion sect).isNone ∧ args.region = none then
        ⟨.error ("Please create a section for " ++ args.profile_name.getD ""
            ++ " in your ~/.aws/config file or provide region"), 0⟩
      else
        let region :=
          if args.region = none then
            some (((env.configRegion sect).getD none).getD "us-east-1")
          else args.region
        if env.profileProbeOk then ⟨.ok (true, region), 1⟩
        else if truthy args.access_key ∧ truthy args.secret_access_key then
          if env.explicitProbeOk then
            let region := if region = none then some env.explicitRegion else region
            ⟨.ok (true, region), 2⟩
          else ⟨.ok (false, region), 2⟩
        else ⟨.ok (false, region), 1⟩
    else
      if truthy args.access_key ∧ truthy args.secret_access_key then
        if env.explicitProbeOk then
          let region :=
            if args.region = none then some env.explicitRegion else args.region
          ⟨.ok (true, region), 1⟩
        else ⟨.ok (false, args.region), 1⟩
      else ⟨.ok (false, args.region), 1⟩

/-- FireProx.__init__ (fire.py lines 43-58): the explicit-credentials
region guard runs before load_creds, so before any probe; then load_creds
must succeed.  Returns the resolved region on success or the raised
message, plus the number of probe calls attempted. -/
def fireProxInit (args : CredArgs) (env : CredEnv) :
    Except String (Option String) × Nat :=
  if truthy args.access_key ∧ truthy args.secret_access_key
     ∧ !truthy args.region then
    (.error "Please provide a region with AWS credentials", 0)
  else
    match load_creds args env with
    | ⟨.error m, n⟩ => (.error m, n)
    | ⟨.ok (true, r), n⟩ => (.ok r, n)
    | ⟨.ok (false, _), n⟩ => (.error "Unable to load AWS credentials", n)

/-- Modelled from the spec: a region is profile-derivable when the profile
is present in the credentials store and its config section supplies a
region. -/
def profileDerivableRegion (args : CredArgs) (env : CredEnv) : Bool :=
  match args.profile_name with
  | some p =>
    env.credentialsSections.contains p
      && match env.configRegion ("profile " ++ p) with
         | some (some _) => true
         | _ => false
  | none => false

/-- The name, createdDate and version fields of the import_rest_api
response, keyed off the imported body by the environment. -/
structure ImportResponse where
  id : String
  name : String
  createdDate : String
  version : String
  deriving Repr, DecidableEq

/-- Environment of create_api: responses of import_rest_api (as a function
of the imported body) and of create_deployment (the deployment id, as a
function of the rest api id). -/
structure CreateClient where
  importResponse : String → ImportResponse
  deploymentId : String → String

/-- store_api (fire.py lines 359-363): pure formatting of the record. -/
def store_api (api_id name created_dt proxy_url url : String) : String :=
  "[" ++ created_dt ++ "] (" ++ api_id ++ ") " ++ name ++ " => "
    ++ proxy_url ++ " (" ++ url ++ ")"

/-- create_deployment (fire.py lines 365-377): guard, the remote call, and
the derived public invocation URL. -/
def create_deployment (client : CreateClient) (region : String)
    (api_id : String) : Except PyError (String × String) :=
  if api_id.data.isEmpty then .error (.fireProx "Please provide a valid API ID")
  else
    .ok (client.deploymentId api_id,
      "https://" ++ api_id ++ ".execute-api." ++ region
        ++ ".amazonaws.com/fireprox/")

/-- create_api (fire.py lines 259-280).  The template renderer is an
external collaborator, modelled as the abstract `render`.  Returns the
result pair (the id/proxy_url record and the store_api string) and the
remote calls made.  No catalog is consulted anywhere: the import call is
unconditional once the url guard passes. -/
def create_api (client : CreateClient) (render : String → String)
    (region : String) (url : Option String) :
    Except PyError ((String × String) × String) × List RemoteCall :=
  if !truthy url then
    (.error (.fireProx "Please provide a valid URL end-point"), [])
  else
    let u := url.getD ""
    let template := render u
    let resp := client.importResponse template
    match create_deployment client region resp.id with
    | .error e => (.error e, [.importRestApi])
    | .ok (_, proxy_url) =>
      (.ok ((resp.id, proxy_url),
        store_api resp.id resp.name resp.createdDate proxy_url u),
       [.importRestApi, .createDeployment])

/-- An item of client.get_rest_apis, with the fields list_api reads. -/
structure ApiItem where
  createdDate : String
  id : String
  name : String
  deriving Repr, DecidableEq

/-- list_api in its non-deleting form (fire.py lines 340-357).
`integrationOf` models get_integration for an api id: none when reading
the integration raises (no catch-all resource, or the remote call fails),
in which case the bare except skips the item. -/
def list_api (items : List ApiItem) (integrationOf : String → Option String)
    (region : String) (deleted_api_id : Option String) : List String :=
  items.filterMap (fun item =>
    match integrationOf item.id with
    | none => none
    | some uri =>
      let proxy_url := py_replace uri "\x7bproxy\x7d" ""
      let url := "https://" ++ item.id ++ ".execute-api." ++ region
        ++ ".amazonaws.com/fireprox/"
      if deleted_api_id = some item.id then none
      else some ("[" ++ item.createdDate ++ "] (" ++ item.id ++ ") "
        ++ item.name ++ ": " ++ url ++ " => " ++ proxy_url))

/-- Modelled from the spec: the naming marker that create_api stamps on a
gateway definition display name (get_template titles every definition
fireprox_ followed by the target domain). -/
def hasNamingMarker (name : String) : Bool :=
  "fireprox_".data.isPrefixOf name.data

/-- The region list the prune command iterates over (fire.py lines
525-530): parse_region on the region argument, with None replaced by the
default region list and a single region wrapped in a singleton. -/
def pruneRegionList (fs : String → Option String)
    (choose : List String → String) (regionArg : Option ReSpec) :
    Except PyError (List String) :=
  match parse_region fs choose regionArg "all" with
  | .error e => .error e
  | .ok none => .ok AWS_DEFAULT_REGIONS
  | .ok (some (.str s)) => .ok [s]
  | .ok (some (.list l)) => .ok l

/-- The prune confirmation prompt (fire.py line 532). -/
def prunePrompt (regions : List String) : String :=
  "This will delete ALL APIs from region(s): " ++ String.intercalate "," regions
    ++ ". Proceed? [y/N] "

/-- The deletion fan-out of prune (fire.py lines 536-549): for each region
in order, each api listed in that region is deleted, in order. -/
def pruneDeleteSequence (apisIn : String → List String)
    (regions : List String) : List (String × String) :=
  regions.flatMap (fun r => (apisIn r).map (fun a => (r, a)))

/-- Written from the claim wording for C2: the patched response target URI
with the catch-all suffix stripped (the suffix /\x7bproxy\x7d removed when
it terminates the URI). -/
def specSuffixStripped (uri : String) : String :=
  if pyEndsWith uri "/\x7bproxy\x7d" then pyDropRight uri 8 else uri

/-- The success condition update_api actually implements, as amended: the
patched target URI with every occurrence of the catch-all suffix removed,
compared with the caller url after trailing-slash normalisation. -/
def amendedUpdateSuccess (uri url : String) : Bool :=
  py_replace uri "/\x7bproxy\x7d" "" == pyStripSlash url

instance {ε α : Type} [DecidableEq ε] [DecidableEq α] : DecidableEq (Except ε α) :=
  fun a b =>
    match a, b with
    | .error e, .error f =>
      if h : e = f then .isTrue (h ▸ rfl)
      else .isFalse (fun hh => h (Except.error.inj hh))
    | .ok x, .ok y =>
      if h : x = y then .isTrue (h ▸ rfl)
      else .isFalse (fun hh => h (Except.ok.inj hh))
    | .error _, .ok _ => .isFalse (fun hh => Except.noConfusion hh)
    | .ok _, .error _ => .isFalse (fun hh => Except.noConfusion hh)

/-!  Theorems.  -/

/-- C5, counterexample: for a file whose content is a, blank line, b,
parse_region in mode all returns the stripped lines including an empty
entry for the blank line — not the non-empty lines a, b of the file. -/
theorem C5_counterexample :
    parse_region (fun p => if p = "regions.txt" then some "a\n\nb\n" else none)
        (fun l => l.headD "") (some (.str "regions.txt")) "all"
      = .ok (some (.list ["a", "", "b"]))
    ∧ (["a", "", "b"] : List String) ≠ ["a", "b"] := by
  exact ⟨by decide, by decide⟩

/-- C5 (amended): when the region specifier is a path to an existing
local file, parse(spec, all) returns every line of the file stripped of
surrounding whitespace, in file order — blank lines contribute empty
entries — and parse(spec, random) returns the member of that list that
random.choice picks. -/
theorem C5_parse_file_lines (fs : String → Option String)
    (choose : List String → String) (path content : String)
    (hfs : fs path = some content)
    (hch : choose ((py_readlines content).map py_strip)
        ∈ (py_readlines content).map py_strip) :
    parse_region fs choose (some (.str path)) "all"
      = .ok (some (.list ((py_readlines content).map py_strip)))
    ∧ ∃ r, parse_region fs choose (some (.str path)) "random"
        = .ok (some (.str r))
        ∧ r ∈ (py_readlines content).map py_strip := by
  have hne : ((py_readlines content).map py_strip) ≠ [] := by
    intro h
    rw [h] at hch
    exact absurd hch (List.not_mem_nil _)
  have hie : ((py_readlines content).map py_strip).isEmpty = false := by
    cases h : (py_readlines content).map py_strip with
    | nil => exact absurd h hne
    | cons a l => rfl
  refine ⟨?_, choose ((py_readlines content).map py_strip), ?_, hch⟩
  · simp [parse_region, hfs]
  · simp [parse_region, hfs, hie]

/-- Witness for C5_parse_file_lines at a file with lines a, b, c. -/
theorem C5_witness :
    parse_region (fun p => if p = "regions.txt" then some "a\nb\nc" else none)
        (fun l => l.headD "") (some (.str "regions.txt")) "all"
      = .ok (some (.list ((py_readlines "a\nb\nc").map py_strip)))
    ∧ ∃ r, parse_region (fun p => if p = "regions.txt" then some "a\nb\nc" else none)
        (fun l => l.headD "") (some (.str "regions.txt")) "random"
        = .ok (some (.str r))
        ∧ r ∈ (py_readlines "a\nb\nc").map py_strip :=
  C5_parse_file_lines _ _ "regions.txt" "a\nb\nc" (by decide) (by decide)

/-- C9: when prune receives no region specifier, the region list it acts
on is the built-in default list of all 17 regions; the confirmation
prompt names each of them, and the deletion fan-out visits the regions in
list order, one deletion per api listed in that region. -/
theorem C9_prune_default_regions (fs : String → Option String)
    (choose : List String → String) (apisIn : String → List String) :
    pruneRegionList fs choose none = .ok AWS_DEFAULT_REGIONS
    ∧ AWS_DEFAULT_REGIONS.length = 17
    ∧ (AWS_DEFAULT_REGIONS.all
        (fun r => decide (r.data <:+: (prunePrompt AWS_DEFAULT_REGIONS).data))) = true
    ∧ (pruneDeleteSequence apisIn AWS_DEFAULT_REGIONS).map Prod.fst
        = AWS_DEFAULT_REGIONS.flatMap (fun r => (apisIn r).map (fun _ => r)) := by
  refine ⟨rfl, rfl, ?_, ?_⟩
  · set_option maxRecDepth 10000 in decide
  · simp [pruneDeleteSequence, List.map_flatMap, List.map_map]

/-- The retry loop makes at most `fuel` attempts beyond those already
accumulated. -/
theorem delete_loop_attempts_le (client : Nat → DelResp) :
    ∀ (fuel attempt sleepTime : Nat) (success : Bool) (msg : String)
      (acc : Nat) (sleeps : List Nat),
      (delete_loop client attempt fuel sleepTime success msg acc sleeps).attempts
        ≤ acc + fuel := by
  intro fuel
  induction fuel with
  | zero =>
    intro attempt sleepTime success msg acc sleeps
    simp [delete_loop]
  | succ f ih =>
    intro attempt sleepTime success msg acc sleeps
    cases success with
    | true => simp [delete_loop]
    | false =>
      cases h : client attempt with
      | notFound => simp [delete_loop, h]
      | throttle =>
        have := ih (attempt + 1) (sleepTime * 2) false "Too many requests"
          (acc + 1) (sleeps ++ [sleepTime])
        simp [delete_loop, h]; omega
      | clientErr m =>
        have := ih (attempt + 1) sleepTime false m (acc + 1) sleeps
        simp [delete_loop, h]; omega
      | genericExc =>
        have := ih (attempt + 1) sleepTime false "Generic error" (acc + 1) sleeps
        simp [delete_loop, h]; omega
      | ok =>
        have := ih (attempt + 1) sleepTime true "" (acc + 1) sleeps
        simp [delete_loop, h]; omega

/-- C6: against a provider that throttles twice and then succeeds,
delete_api returns success after exactly 3 attempts, sleeping 3 then 6
seconds (the second inter-attempt delay strictly greater than the first),
and no run of delete_api ever makes more than 3 attempts. -/
theorem C6_delete_throttle_backoff (client : Nat → DelResp) (api_id : Option String)
    (ha : truthy api_id = true) (h0 : client 0 = .throttle)
    (h1 : client 1 = .throttle) (h2 : client 2 = .ok) :
    delete_api client api_id = .ok ⟨true, "", 3, [3, 6]⟩
    ∧ (3 : Nat) < 6
    ∧ ∀ (c : Nat → DelResp) (a : Option String) (r : DelRun),
        delete_api c a = .ok r → r.attempts ≤ 3 := by
  refine ⟨?_, by decide, ?_⟩
  · simp [delete_api, ha, delete_loop, h0, h1, h2]
  · intro c a r h
    by_cases hta : truthy a = true
    · simp only [delete_api, hta, Bool.not_true, Bool.false_eq_true,
        if_false, Except.ok.injEq] at h
      have hle := delete_loop_attempts_le c 3 0 3 false "Generic error" 0 []
      rw [h] at hle
      simpa using hle
    · simp only [Bool.not_eq_true] at hta
      simp [delete_api, hta] at h

/-- Witness for C6_delete_throttle_backoff with a concrete client that
throttles on the first two attempts and succeeds on the third. -/
theorem C6_witness :
    delete_api (fun n => if n < 2 then DelResp.throttle else .ok) (some "abc")
      = .ok ⟨true, "", 3, [3, 6]⟩
    ∧ (3 : Nat) < 6
    ∧ ∀ (c : Nat → DelResp) (a : Option String) (r : DelRun),
        delete_api c a = .ok r → r.attempts ≤ 3 :=
  C6_delete_throttle_backoff _ _ (by decide) (by decide) (by decide) (by decide)

/-- C7: against a provider that reports not-found on the first attempt,
delete_api stops immediately after exactly one attempt and returns the
(success, message) pair (false, API not found) instead of raising. -/
theorem C7_delete_notfound (client : Nat → DelResp) (api_id : Option String)
    (ha : truthy api_id = true) (h0 : client 0 = .notFound) :
    delete_api client api_id = .ok ⟨false, "API not found", 1, []⟩ := by
  simp [delete_api, ha, delete_loop, h0]

/-- Witness for C7_delete_notfound with a concrete client. -/
theorem C7_witness :
    delete_api (fun _ => DelResp.notFound) (some "abc")
      = .ok ⟨false, "API not found", 1, []⟩ :=
  C7_delete_notfound _ _ (by decide) (by decide)

/-- The message of the missing-resource error never coincides with the
message of the input guard. -/
theorem unable_msg_ne_guard (s : String) :
    ("Unable to update, no valid resource for " ++ s)
      ≠ "Please provide a valid API ID and URL end-point" := by
  intro h
  have h2 : ("Unable to update, no valid resource for " ++ s).data.head?
      = some 'U' := rfl
  rw [h] at h2
  exact absurd h2 (by decide)

/-- C10: update_api raises its input-guard error exactly when both api_id
and url are absent (falsy); when api_id is provided and url is None, the
guard passes and the trailing-slash check on url raises an unhandled
TypeError before any remote call is made. -/
theorem C10_update_guard (client : UpdateClient) (api_id url : Option String) :
    ((update_api client api_id url).fst
        = .error (.fireProx "Please provide a valid API ID and URL end-point")
      ↔ truthy api_id = false ∧ truthy url = false)
    ∧ (truthy api_id = true →
        update_api client api_id none = (.error .typeError, [])) := by
  constructor
  · constructor
    · intro h
      by_cases h1 : truthy api_id = true
      · exfalso
        cases url with
        | none => simp [update_api, h1] at h
        | some u =>
          by_cases he : u.data.isEmpty = true
          · simp [update_api, h1, he] at h
          · simp only [Bool.not_eq_true] at he
            cases hr : get_resource_scan client.resources with
            | some rid => simp [update_api, h1, he, hr] at h
            | none =>
              simp [update_api, h1, he, hr] at h
              exact unable_msg_ne_guard _ h
      · rw [Bool.not_eq_true] at h1
        by_cases h2 : truthy url = true
        · exfalso
          cases url with
          | none => simp [truthy] at h2
          | some u =>
            have he : u.data.isEmpty = false := by
              revert h2
              simp [truthy]
            simp [update_api, h1, h2, he] at h
        · rw [Bool.not_eq_true] at h2
          exact ⟨h1, h2⟩
    · rintro ⟨h1, h2⟩
      simp [update_api, h1, h2]
  · intro h1
    simp [update_api, h1]

/-- Witness for C10_update_guard: with api_id present and url None, the
guard passes and the result is the unhandled TypeError with no remote
call. -/
theorem C10_witness :
    update_api ⟨[], fun _ _ => ""⟩ (some "a") none = (.error .typeError, []) :=
  (C10_update_guard ⟨[], fun _ _ => ""⟩ (some "a") none).2 (by decide)

/-- C3, counterexample: when no catch-all resource exists, update_api
does not return a failure outcome — it raises FireProxException, and the
CLI turns that into help text and process exit status 1, aborting the
process. -/
theorem C3_counterexample :
    (update_api ⟨[⟨"r9", "/other"⟩], fun _ _ => "z"⟩
        (some "x1") (some "http://y")).fst
      = .error (.fireProx "Unable to update, no valid resource for x1")
    ∧ (update_api ⟨[⟨"r9", "/other"⟩], fun _ _ => "z"⟩
        (some "x1") (some "http://y")).fst ≠ .ok false
    ∧ main_update_exit ⟨[⟨"r9", "/other"⟩], fun _ _ => "z"⟩
        (some "x1") (some "http://y") = 1 :=
  ⟨by decide, by decide, by decide⟩

/-- C3 (amended): when update_api finds no catch-all resource under
api_id, it raises FireProxException (Unable to update, no valid resource
for the api id) after the single get_resources call; the CLI catches the
exception, prints help, and exits with status 1 — a failure exit, not a
returned failure result. -/
theorem C3_update_no_resource_raises (client : UpdateClient) (a u : String)
    (ha : truthy (some a) = true) (hu : truthy (some u) = true)
    (hr : get_resource_scan client.resources = none) :
    (update_api client (some a) (some u)).fst
      = .error (.fireProx ("Unable to update, no valid resource for " ++ a))
    ∧ (update_api client (some a) (some u)).snd = [.getResources]
    ∧ main_update_exit client (some a) (some u) = 1 := by
  have he : u.data.isEmpty = false := by
    revert hu
    simp [truthy]
  refine ⟨?_, ?_, ?_⟩
  · simp [update_api, ha, hu, he, hr]
  · simp [update_api, ha, hu, he, hr]
  · simp [main_update_exit, update_api, ha, hu, he, hr]

/-- Witness for C3_update_no_resource_raises at a client with no
catch-all resource. -/
theorem C3_witness :
    (update_api ⟨[⟨"r9", "/other"⟩], fun _ _ => "z"⟩
        (some "x7") (some "http://z")).fst
      = .error (.fireProx ("Unable to update, no valid resource for " ++ "x7"))
    ∧ (update_api ⟨[⟨"r9", "/other"⟩], fun _ _ => "z"⟩
        (some "x7") (some "http://z")).snd = [.getResources]
    ∧ main_update_exit ⟨[⟨"r9", "/other"⟩], fun _ _ => "z"⟩
        (some "x7") (some "http://z") = 1 :=
  C3_update_no_resource_raises _ "x7" "http://z" (by decide) (by decide) (by decide)

/-- C2, counterexample: for caller url http://y/x/ and a patched response
whose uri is http://y/\x7bproxy\x7d/x/\x7bproxy\x7d, update_api returns
true, yet the uri with the catch-all suffix stripped does not equal the
caller-supplied url: success is decided neither by suffix-stripping alone
nor against the caller url verbatim. -/
theorem C2_counterexample :
    (update_api ⟨[⟨"r1", "/\x7bproxy+\x7d"⟩],
        fun _ _ => "http://y/\x7bproxy\x7d/x/\x7bproxy\x7d"⟩
        (some "a1b2c3") (some "http://y/x/")).fst = .ok true
    ∧ specSuffixStripped "http://y/\x7bproxy\x7d/x/\x7bproxy\x7d" ≠ "http://y/x/" :=
  ⟨by decide, by decide⟩

/-- C2 (amended): when a catch-all resource exists, update_api returns
the boolean that compares the patched response uri with every occurrence
of the catch-all suffix removed against the caller url after
trailing-slash normalisation, and nothing else: true exactly when they
match. -/
theorem C2_update_success_iff (client : UpdateClient) (api_id : Option String)
    (u : String) (ha : truthy api_id = true) (hu : truthy (some u) = true)
    (rid : String) (hr : get_resource_scan client.resources = some rid) :
    (update_api client api_id (some u)).fst
      = .ok (amendedUpdateSuccess
          (client.patchedUri rid (pyStripSlash u ++ "/\x7bproxy\x7d")) u) := by
  have he : u.data.isEmpty = false := by
    revert hu
    simp [truthy]
  simp [update_api, ha, hu, he, hr, amendedUpdateSuccess]

/-- Witness for C2_update_success_iff: the provider echoes the requested
patch value back, so the comparison succeeds. -/
theorem C2_witness :
    (update_api ⟨[⟨"r1", "/\x7bproxy+\x7d"⟩], fun _ v => v⟩
        (some "a1") (some "http://y")).fst
      = .ok (amendedUpdateSuccess
          ((fun (_ v : String) => v) "r1" (pyStripSlash "http://y" ++ "/\x7bproxy\x7d"))
          "http://y") :=
  C2_update_success_iff ⟨[⟨"r1", "/\x7bproxy+\x7d"⟩], fun _ v => v⟩ (some "a1")
    "http://y" (by decide) (by decide) "r1" (by decide)

/-- C1, counterexample: create_api consults no catalog, so two create
invocations for the same url from a fresh state each perform their own
remote import — two import-definition calls in total, not one. -/
theorem C1_counterexample :
    (create_api ⟨fun _ => ⟨"id1", "fireprox_x", "2024", "v1"⟩, fun _ => "dep1"⟩
        (fun u => u) "us-east-1" (some "http://x")).snd.count .importRestApi
    + (create_api ⟨fun _ => ⟨"id1", "fireprox_x", "2024", "v1"⟩, fun _ => "dep1"⟩
        (fun u => u) "us-east-1" (some "http://x")).snd.count .importRestApi = 2
    ∧ (2 : Nat) ≠ 1 :=
  ⟨by decide, by decide⟩

/-- C1 (amended): every create_api invocation with a truthy url performs
exactly one remote import-definition call — there is no catalog check
that could skip the remote work, so two invocations for the same url
perform two import calls. -/
theorem C1_create_always_imports (client : CreateClient) (render : String → String)
    (region : String) (url : Option String) (h : truthy url = true) :
    (create_api client render region url).snd.count .importRestApi = 1
    ∧ (create_api client render region url).snd.count .importRestApi
      + (create_api client render region url).snd.count .importRestApi = 2 := by
  have h1 : (create_api client render region url).snd.count .importRestApi = 1 := by
    cases hd : create_deployment client region
        (client.importResponse (render (url.getD ""))).id with
    | error e =>
      have hc : (create_api client render region url).snd = [.importRestApi] := by
        simp [create_api, h, hd]
      rw [hc]
      decide
    | ok p =>
      obtain ⟨d, pu⟩ := p
      have hc : (create_api client render region url).snd
          = [.importRestApi, .createDeployment] := by
        simp [create_api, h, hd]
      rw [hc]
      decide
  exact ⟨h1, by rw [h1]⟩

/-- Witness for C1_create_always_imports at a concrete client and url. -/
theorem C1_witness :
    (create_api ⟨fun _ => ⟨"id1", "fireprox_x", "2024", "v1"⟩, fun _ => "dep1"⟩
        (fun u => u) "us-east-1" (some "http://x")).snd.count .importRestApi = 1
    ∧ (create_api ⟨fun _ => ⟨"id1", "fireprox_x", "2024", "v1"⟩, fun _ => "dep1"⟩
        (fun u => u) "us-east-1" (some "http://x")).snd.count .importRestApi
      + (create_api ⟨fun _ => ⟨"id1", "fireprox_x", "2024", "v1"⟩, fun _ => "dep1"⟩
        (fun u => u) "us-east-1" (some "http://x")).snd.count .importRestApi = 2 :=
  C1_create_always_imports _ _ "us-east-1" (some "http://x") (by decide)

/-- C4, counterexample: a gateway definition whose display name does not
carry the fireprox_ naming marker still produces a record in list_api, so
the result is not restricted to marker-named definitions. -/
theorem C4_counterexample :
    list_api [⟨"2021", "abc123", "totally-unrelated"⟩]
        (fun _ => some "http://t/\x7bproxy\x7d") "us-east-1" none
      = ["[2021] (abc123) totally-unrelated: https://abc123.execute-api.us-east-1.amazonaws.com/fireprox/ => http://t/"]
    ∧ hasNamingMarker "totally-unrelated" = false :=
  ⟨by decide, by decide⟩

/-- C4 (amended): list_api produces exactly one record per definition
whose integration is readable and whose id is not the deleted one,
regardless of its display name — no naming-marker filter is applied. -/
theorem C4_list_records_readable (items : List ApiItem)
    (integrationOf : String → Option String) (region : String)
    (deleted : Option String) :
    (list_api items integrationOf region deleted).length
      = items.countP (fun it =>
          (integrationOf it.id).isSome && !(deleted == some it.id)) := by
  induction items with
  | nil => rfl
  | cons it rest ih =>
    simp only [list_api] at ih ⊢
    rw [List.filterMap_cons, List.countP_cons]
    cases hi : integrationOf it.id with
    | none => simpa [hi] using ih
    | some uri =>
      by_cases hd : deleted = some it.id
      · simpa [hi, hd] using ih
      · simp [hi, hd, ih]

/-- C8, counterexample: with explicit key and secret, no region argument,
and a profile whose config section does supply a region (a
profile-derivable region), __init__ still raises the fatal configuration
error with zero probe calls instead of proceeding to the probe. -/
theorem C8_counterexample :
    fireProxInit ⟨some "p", some "AK", some "SK", none, none⟩
        ⟨["p"], (fun s => if s = "profile p" then some (some "eu-west-1") else none),
          true, "us-east-1", true, true, "us-east-2"⟩
      = (.error "Please provide a region with AWS credentials", 0)
    ∧ profileDerivableRegion ⟨some "p", some "AK", some "SK", none, none⟩
        ⟨["p"], (fun s => if s = "profile p" then some (some "eu-west-1") else none),
          true, "us-east-1", true, true, "us-east-2"⟩ = true :=
  ⟨by decide, by decide⟩

/-- With explicit keys and a region argument present, load_creds always
attempts at least one verification probe. -/
theorem load_creds_probes_pos (args : CredArgs) (env : CredEnv)
    (hk : truthy args.access_key = true) (hs : truthy args.secret_access_key = true)
    (hrne : args.region ≠ none) :
    1 ≤ (load_creds args env).probes := by
  unfold load_creds
  simp only [hk, hs, Bool.true_or, Bool.not_true, Bool.false_eq_true, if_false]
  by_cases hic : profileInCreds args env = true
  · simp only [hic, if_true]
    split_ifs with h1 h2 h3 h4 <;> first
      | exact absurd h1.2 hrne
      | simp
  · simp only [Bool.not_eq_true] at hic
    simp only [hic, Bool.false_eq_true, if_false]
    split_ifs <;> simp

/-- C8 (amended): whenever explicit key and secret are supplied, a
missing (falsy) region argument is a fatal configuration error raised
with zero probe calls — even if a profile-derivable region exists — and
a present region argument always leads to at least one verification
probe. -/
theorem C8_region_guard (args : CredArgs) (env : CredEnv)
    (hk : truthy args.access_key = true)
    (hs : truthy args.secret_access_key = true) :
    (truthy args.region = false →
      fireProxInit args env
        = (.error "Please provide a region with AWS credentials", 0))
    ∧ (truthy args.region = true → 1 ≤ (fireProxInit args env).snd) := by
  constructor
  · intro hr
    simp [fireProxInit, hk, hs, hr]
  · intro hr
    have hrne : args.region ≠ none := by
      intro hn
      rw [hn] at hr
      simp [truthy] at hr
    have hn := load_creds_probes_pos args env hk hs hrne
    simp only [fireProxInit, hk, hs, hr, Bool.not_true, Bool.false_eq_true,
      and_false, if_false]
    rcases hlc : load_creds args env with ⟨res, n⟩
    rw [hlc] at hn
    simp only at hn
    rcases res with m | ⟨b, r⟩
    · simpa using hn
    · cases b
      · simpa using hn
      · simpa using hn

/-- Witness for C8_region_guard: with a region argument present the
resolution reaches at least one probe call. -/
theorem C8_witness :
    1 ≤ (fireProxInit ⟨some "p", some "AK", some "SK", none, some "us-east-1"⟩
        ⟨["p"], (fun s => if s = "profile p" then some (some "eu-west-1") else none),
          true, "us-east-1", true, true, "us-east-2"⟩).snd :=
  (C8_region_guard _ _ (by decide) (by decide)).2 (by decide)

end Fireprox
